import Mathlib

/-!
# Verification of the medical telegram warehouse pipeline

A shallow embedding, in Lean 4, of the core logic of the
`medical_telegram_warehouse` repository:

* the image classifier `classify_image` (src/yolo_detect.py) with the
  product keyword set from src/config.py;
* the raw message loader `load_raw_data` (src/load_raw_to_postgres.py)
  and its insert-if-absent store semantics;
* the detection loader `load_yolo_results` (src/load_yolo_to_postgres.py)
  with Python `strip`/`lower`/`float` modelled explicitly;
* the Dagster pipeline `telegram_medical_pipeline` (src/pipeline.py and
  src/api/pipeline.py) as a sequential fail-fast state machine over
  external process outcomes;
* the per-channel aggregation `get_visual_content_stats`
  (src/api/main.py) implementing the SQL of the visual-content report.

Confidence scores and SQL numerics are modelled as rationals; machine
floats introduce no further behaviour relevant to the theorems below
(no float arithmetic is performed before the explicit 3-decimal
rounding that the theorems account for).
-/

namespace MedicalWarehouse

/-- A single object detection as consumed by `classify_image` in
src/yolo_detect.py: a class label (the YOLO class name) together with a
confidence score.  Bounding boxes are ignored by the classifier. -/
structure Detection where
  label : String
  conf : ℚ
deriving DecidableEq

/-- The product keyword set `PRODUCT_KEYWORDS` from src/config.py. -/
def PRODUCT_KEYWORDS : List String :=
  ["bottle", "box", "cup", "vase", "medicine", "pill", "car", "bus", "truck"]

/-- Python's builtin `max` over a list of numbers: undefined (raises) on
the empty list, otherwise a left fold of binary `max` seeded with the
first element. -/
def pyMax : List ℚ → Option ℚ
  | [] => none
  | c :: cs => some (cs.foldl max c)

/-- `classify_image` from src/yolo_detect.py (lines 53-132): returns
`("other", 0.0)` when no objects were detected; otherwise computes the
maximal confidence, checks for the label `"person"` and for any label in
`PRODUCT_KEYWORDS`, and classifies by the four-way precedence rule. -/
def classify_image (dets : List Detection) : String × ℚ :=
  match dets with
  | [] => ("other", (0 : ℚ))
  | d :: ds =>
    let detected_classes := (d :: ds).map Detection.label
    let max_conf := (pyMax ((d :: ds).map Detection.conf)).getD 0
    let has_person := detected_classes.contains "person"
    let has_product := detected_classes.any (fun obj => PRODUCT_KEYWORDS.contains obj)
    if has_person && has_product then ("promotional", max_conf)
    else if has_product && !has_person then ("product_display", max_conf)
    else if has_person && !has_product then ("lifestyle", max_conf)
    else ("other", max_conf)

/-- Concrete classifier input for C4: no person, no product keyword. -/
def c4Dets : List Detection := [⟨"dog", 1/2⟩, ⟨"cat", 3/4⟩]

/-- Concrete classifier input for C5: a person and a product keyword. -/
def c5Dets : List Detection := [⟨"person", 1/2⟩, ⟨"bottle", 9/10⟩]

/-- The same detections as `c5Dets`, in the opposite order. -/
def c5DetsRev : List Detection := [⟨"bottle", 9/10⟩, ⟨"person", 1/2⟩]

/-- A stored row of `raw.telegram_messages`
(src/load_raw_to_postgres.py lines 30-42).  The `message_date` column is
kept as the ISO string handed to `datetime.fromisoformat` (after the
trailing-Z replacement); timestamp decoding adds nothing to the claims. -/
structure MessageRow where
  message_id : Int
  channel_name : String
  message_date : Option String
  message_text : String
  views : Int
  forwards : Int
  has_media : Bool
  image_path : Option String
deriving DecidableEq

/-- The composite primary key of `raw.telegram_messages`:
`(message_id, channel_name)`. -/
def msgKey (r : MessageRow) : Int × String := (r.message_id, r.channel_name)

/-- One row of the batch `INSERT ... ON CONFLICT (message_id,
channel_name) DO NOTHING` (src/load_raw_to_postgres.py lines 85-94):
append the row unless a row with the same key is already present; an
existing row is left untouched. -/
def insertMessage (table : List MessageRow) (r : MessageRow) : List MessageRow :=
  if table.any (fun t => decide (msgKey t = msgKey r)) then table else table ++ [r]

/-- The whole batch insert, row by row in batch order. -/
def insertMessages (table : List MessageRow) (rs : List MessageRow) : List MessageRow :=
  rs.foldl insertMessage table

/-- A raw message object as decoded from a scraped JSON file.  Every
field may be absent: `msg.get(key)` yields Python `None` for a missing
key, modelled as `none`. -/
structure RawMsg where
  message_id : Option Int := none
  channel_name : Option String := none
  message_date : Option String := none
  message_text : Option String := none
  views : Option Int := none
  forwards : Option Int := none
  has_media : Option Bool := none
  image_path : Option String := none
deriving DecidableEq

/-- Python truthiness of an optional integer: `None` and `0` are falsy. -/
def truthyInt : Option Int → Bool
  | none => false
  | some n => decide (n ≠ 0)

/-- Python truthiness of an optional string: `None` and `""` are falsy. -/
def truthyStr : Option String → Bool
  | none => false
  | some s => decide (s ≠ "")

/-- The per-message record construction of `load_raw_data`
(src/load_raw_to_postgres.py lines 60-82): the record is kept only when
`message_id and channel_name` is truthy; `views`/`forwards` use
`msg.get(...) or 0` (so `None` and `0` both store 0), `message_text`
defaults to `""`, `has_media` to `False`, and `message_date` is parsed
only when truthy, after replacing a trailing `Z` by `+00:00`. -/
def toRecord (msg : RawMsg) : Option MessageRow :=
  if truthyInt msg.message_id && truthyStr msg.channel_name then
    some {
      message_id := msg.message_id.getD 0
      channel_name := msg.channel_name.getD ""
      message_date :=
        if truthyStr msg.message_date then
          some ((msg.message_date.getD "").replace "Z" "+00:00")
        else none
      message_text := msg.message_text.getD ""
      views := msg.views.getD 0
      forwards := msg.forwards.getD 0
      has_media := msg.has_media.getD false
      image_path := msg.image_path }
  else none

/-- `defaultdict(int)` increment of `channel_counts`, preserving Python
dict first-insertion order. -/
def bumpCount : List (String × Nat) → String → List (String × Nat)
  | [], ch => [(ch, 1)]
  | (c, n) :: rest, ch =>
    if c = ch then (c, n + 1) :: rest else (c, n) :: bumpCount rest ch

/-- One scraped JSON file: its path and the outcome of `json.load`,
which is an error for unparsable content. -/
abbrev RawFile := String × Except Unit (List RawMsg)

/-- A console line printed by `load_raw_data`.  The script prints the
file count, a skip notice per invalid JSON file, the count of records
attempted, and one per-channel count line; it prints nothing else. -/
inductive LogEvent where
  | foundFiles (n : Nat)
  | skippedInvalidJson (file : String)
  | attemptedLoad (n : Nat)
  | channelCount (channel : String) (count : Nat)
deriving DecidableEq

/-- The file/record accumulation loop of `load_raw_data`
(src/load_raw_to_postgres.py lines 49-82): per file, unparsable JSON is
skipped with a log line; per message, a record is accumulated only when
`toRecord` accepts it, bumping that channel's count. -/
def processFiles (files : List RawFile) :
    List MessageRow × List (String × Nat) × List LogEvent :=
  files.foldl
    (fun acc file =>
      match file.2 with
      | Except.error _ => (acc.1, acc.2.1, acc.2.2 ++ [LogEvent.skippedInvalidJson file.1])
      | Except.ok msgs =>
        msgs.foldl
          (fun acc2 msg =>
            match toRecord msg with
            | none => acc2
            | some r => (acc2.1 ++ [r], bumpCount acc2.2.1 r.channel_name, acc2.2.2))
          acc)
    ([], [], [])

/-- `load_raw_data` from src/load_raw_to_postgres.py over a given initial
table state: collects records from all files, and when any were found,
batch-inserts them with insert-if-absent semantics and prints the
attempted-record count and the per-channel counts.  Returns the table
after the run together with everything printed. -/
def load_raw_data (files : List RawFile) (table : List MessageRow) :
    List MessageRow × List LogEvent :=
  if (processFiles files).1.isEmpty then
    (table, LogEvent.foundFiles files.length :: (processFiles files).2.2)
  else
    (insertMessages table (processFiles files).1,
     (LogEvent.foundFiles files.length :: (processFiles files).2.2)
       ++ [LogEvent.attemptedLoad (processFiles files).1.length]
       ++ (processFiles files).2.1.map (fun p => LogEvent.channelCount p.1 p.2))

/-- Concrete batch for C9: nine valid records and one record whose
`message_id` is missing, all on channel "testch". -/
def c9Batch : List RawMsg :=
  [{ message_id := some 1, channel_name := some "testch" },
   { message_id := some 2, channel_name := some "testch" },
   { message_id := some 3, channel_name := some "testch" },
   { message_id := some 4, channel_name := some "testch" },
   { channel_name := some "testch" },
   { message_id := some 5, channel_name := some "testch" },
   { message_id := some 6, channel_name := some "testch" },
   { message_id := some 7, channel_name := some "testch" },
   { message_id := some 8, channel_name := some "testch" },
   { message_id := some 9, channel_name := some "testch" }]

/-- Concrete record for C10: both required fields present but falsy or
paired with a falsy companion — message id 0 on channel "pharma". -/
def c10Msg : RawMsg := { message_id := some 0, channel_name := some "pharma" }

/-- Concrete stored row for C3: message 42 on channel "chem_pharm". -/
def c3Row : MessageRow :=
  { message_id := 42, channel_name := "chem_pharm", message_date := none,
    message_text := "hello", views := 7, forwards := 1, has_media := false,
    image_path := none }

/-- A second record with the same natural key as `c3Row` but different
attributes. -/
def c3RowVariant : MessageRow :=
  { message_id := 42, channel_name := "chem_pharm", message_date := none,
    message_text := "changed", views := 9, forwards := 2, has_media := true,
    image_path := some "img.jpg" }

/-- Python `str.strip()`: remove leading and trailing whitespace
characters. -/
def pyStrip (s : String) : String :=
  (((s.toList.dropWhile Char.isWhitespace).reverse.dropWhile
      Char.isWhitespace).reverse).asString

/-- Python `str.lower()`, character by character (ASCII case mapping —
the only case mapping exercised by this repository's channel names). -/
def pyLower (s : String) : String :=
  (s.toList.map Char.toLower).asString

/-- The numeric value of a digit string read left to right. -/
def digitsVal (cs : List Char) : Nat :=
  cs.foldl (fun a c => a * 10 + (c.toNat - 48)) 0

/-- Model of Python's builtin `float` on a string: surrounding whitespace
is ignored, then an optional sign followed by a decimal literal — digit
runs around an optional decimal point, with at least one digit in total.
Exponent notation and inf/nan, which never occur in this pipeline's CSV
values, are not modelled.  `none` models `float` raising `ValueError`. -/
def pyFloat (s : String) : Option ℚ :=
  let cs := (pyStrip s).toList
  let sgn : ℚ := if cs.head? = some '-' then -1 else 1
  let body := if cs.head? = some '-' ∨ cs.head? = some '+' then cs.drop 1 else cs
  match List.splitOn '.' body with
  | [ip] =>
    if ip.length > 0 && ip.all Char.isDigit then
      some (sgn * (digitsVal ip : ℚ))
    else none
  | [ip, fp] =>
    if ip.length + fp.length > 0 && ip.all Char.isDigit && fp.all Char.isDigit then
      some (sgn * ((digitsVal ip : ℚ)
        + (digitsVal fp : ℚ) / (10 : ℚ) ^ fp.length))
    else none
  | _ => none

/-- A row of `data/processed/yolo_detections.csv` as produced by
`csv.DictReader`: every field is a string; an absent value reads as the
falsy empty value. -/
structure YoloCsvRow where
  message_id : String
  channel_name : String
  detected_objects : String
  confidence_score : String
  image_category : String
deriving DecidableEq

/-- A stored row of `raw.yolo_detections`
(src/load_yolo_to_postgres.py lines 23-32). -/
structure YoloRow where
  message_id : String
  channel_name : String
  detected_objects : String
  confidence_score : ℚ
  image_category : String
deriving DecidableEq

/-- One element of the records comprehension in `load_yolo_results`
(src/load_yolo_to_postgres.py lines 42-51): the channel name is stripped
and lower-cased, and the confidence is `float(value)` when the value is
truthy (non-empty) and `0.0` otherwise; `float` raising `ValueError` on
a malformed value is the error case. -/
def parseYoloRow (row : YoloCsvRow) : Except String YoloRow :=
  match (if row.confidence_score ≠ "" then
           match pyFloat row.confidence_score with
           | some q => Except.ok q
           | none =>
             Except.error ("could not convert string to float: " ++ row.confidence_score)
         else Except.ok (0 : ℚ)) with
  | Except.error e => Except.error e
  | Except.ok conf =>
    Except.ok { message_id := row.message_id
                channel_name := pyLower (pyStrip row.channel_name)
                detected_objects := row.detected_objects
                confidence_score := conf
                image_category := row.image_category }

/-- The whole records comprehension, row by row in CSV order; the first
`ValueError` aborts it. -/
def parseYoloRows : List YoloCsvRow → Except String (List YoloRow)
  | [] => Except.ok []
  | row :: rest =>
    match parseYoloRow row with
    | Except.error e => Except.error e
    | Except.ok r0 =>
      match parseYoloRows rest with
      | Except.error e => Except.error e
      | Except.ok rs => Except.ok (r0 :: rs)

/-- `load_yolo_results` from src/load_yolo_to_postgres.py over a given
table state: builds all records (any parse error aborts the whole load
before any insert), then `executemany INSERT ... ON CONFLICT DO NOTHING`;
`raw.yolo_detections` declares no uniqueness constraint, so every record
row is appended. -/
def load_yolo_results (rows : List YoloCsvRow) (table : List YoloRow) :
    Except String (List YoloRow) :=
  match parseYoloRows rows with
  | Except.error e => Except.error e
  | Except.ok records => Except.ok (table ++ records)

/-- Concrete CSV row for C6 whose confidence value is malformed. -/
def c6BadRow : YoloCsvRow :=
  { message_id := "1", channel_name := "ch", detected_objects := "",
    confidence_score := "abc", image_category := "other" }

/-- Concrete CSV row for C6 whose confidence value is absent (empty). -/
def c6EmptyRow : YoloCsvRow :=
  { message_id := "2", channel_name := "ch", detected_objects := "bottle",
    confidence_score := "", image_category := "product_display" }

/-- Concrete CSV rows for C7: the same channel spelled "ChannelX" and
"channelx". -/
def c7RowUpper : YoloCsvRow :=
  { message_id := "3", channel_name := "ChannelX", detected_objects := "bottle",
    confidence_score := "", image_category := "product_display" }

/-- See `c7RowUpper`. -/
def c7RowLower : YoloCsvRow :=
  { message_id := "4", channel_name := "channelx", detected_objects := "person",
    confidence_score := "", image_category := "lifestyle" }

/-- The exit status and captured error output of one external process
invocation (subprocess.run / os.system). -/
structure ProcResult where
  returncode : Int
  stderr : String
deriving DecidableEq

/-- The external processes a pipeline run may invoke. -/
inductive Proc where
  | scraperPy
  | loadRawPy
  | dbtRun
  | yoloDetectPy
  | yoloLoadPy
deriving DecidableEq

/-- The environment of one pipeline run: the outcome each external
process would produce were it invoked. -/
structure PipelineEnv where
  scraper : ProcResult
  loadRaw : ProcResult
  dbt : ProcResult
  yoloDetect : ProcResult
  yoloLoad : ProcResult
deriving DecidableEq

/-- The four pipeline stages. -/
inductive Stage where
  | SCRAPE
  | LOAD
  | TRANSFORM
  | ENRICH
deriving DecidableEq

/-- The terminal state of a pipeline run: all ops succeeded, or the run
failed at a stage with that stage's captured error text. -/
inductive RunState where
  | DONE
  | FAILED (stage : Stage) (error : String)
deriving DecidableEq

/-- The `scrape_telegram_data` op (src/pipeline.py lines 11-24): run the
scraper process and raise on a non-zero exit status.  Returns the
processes invoked and the op outcome. -/
def scrape_telegram_data (env : PipelineEnv) : List Proc × Except String Unit :=
  ([Proc.scraperPy],
   if env.scraper.returncode ≠ 0 then
     Except.error ("Scraping failed: " ++ env.scraper.stderr)
   else Except.ok ())

/-- The `load_raw_to_postgres` op (src/pipeline.py lines 26-39). -/
def load_raw_to_postgres (env : PipelineEnv) : List Proc × Except String Unit :=
  ([Proc.loadRawPy],
   if env.loadRaw.returncode ≠ 0 then
     Except.error ("Loading failed: " ++ env.loadRaw.stderr)
   else Except.ok ())

/-- The `run_dbt_transformations` op (src/pipeline.py lines 41-54). -/
def run_dbt_transformations (env : PipelineEnv) : List Proc × Except String Unit :=
  ([Proc.dbtRun],
   if env.dbt.returncode ≠ 0 then
     Except.error ("dbt run failed: " ++ env.dbt.stderr)
   else Except.ok ())

/-- The `run_yolo_enrichment` op of src/pipeline.py (lines 56-81): run
the detection script and raise on failure BEFORE the loading script is
invoked; then run the loading script and raise on its failure. -/
def run_yolo_enrichment (env : PipelineEnv) : List Proc × Except String Unit :=
  if env.yoloDetect.returncode ≠ 0 then
    ([Proc.yoloDetectPy],
     Except.error ("YOLO detection failed: " ++ env.yoloDetect.stderr))
  else if env.yoloLoad.returncode ≠ 0 then
    ([Proc.yoloDetectPy, Proc.yoloLoadPy],
     Except.error ("YOLO loading failed: " ++ env.yoloLoad.stderr))
  else ([Proc.yoloDetectPy, Proc.yoloLoadPy], Except.ok ())

/-- The `run_yolo_enrichment` op of src/api/pipeline.py (lines 28-34):
`os.system` runs BOTH scripts unconditionally, and only afterwards are
the two exit codes checked. -/
def run_yolo_enrichment_api (env : PipelineEnv) : List Proc × Except String Unit :=
  ([Proc.yoloDetectPy, Proc.yoloLoadPy],
   if env.yoloDetect.returncode ≠ 0 ∨ env.yoloLoad.returncode ≠ 0 then
     Except.error "YOLO enrichment failed"
   else Except.ok ())

/-- The job `telegram_medical_pipeline`: the four ops in dependency order
scrape → load → transform → enrich (the `.after` chain of
src/api/pipeline.py lines 36-45); an op starts only when its predecessor
succeeded, and a raised op exception ends the run as FAILED at that
stage, skipping all downstream ops.  Returns the processes invoked, in
invocation order, and the final run state. -/
def telegram_medical_pipeline (env : PipelineEnv) : List Proc × RunState :=
  match scrape_telegram_data env with
  | (p1, Except.error e) => (p1, RunState.FAILED Stage.SCRAPE e)
  | (p1, Except.ok _) =>
    match load_raw_to_postgres env with
    | (p2, Except.error e) => (p1 ++ p2, RunState.FAILED Stage.LOAD e)
    | (p2, Except.ok _) =>
      match run_dbt_transformations env with
      | (p3, Except.error e) => (p1 ++ p2 ++ p3, RunState.FAILED Stage.TRANSFORM e)
      | (p3, Except.ok _) =>
        match run_yolo_enrichment env with
        | (p4, Except.error e) => (p1 ++ p2 ++ p3 ++ p4, RunState.FAILED Stage.ENRICH e)
        | (p4, Except.ok _) => (p1 ++ p2 ++ p3 ++ p4, RunState.DONE)

/-- Concrete run environment for C1: scrape and load succeed, dbt exits
1 with error text "boom", the enrichment scripts would succeed. -/
def c1Env : PipelineEnv :=
  { scraper := { returncode := 0, stderr := "" },
    loadRaw := { returncode := 0, stderr := "" },
    dbt := { returncode := 1, stderr := "boom" },
    yoloDetect := { returncode := 0, stderr := "" },
    yoloLoad := { returncode := 0, stderr := "" } }

/-- Concrete run environment for C2: the detection script exits 1, the
loading script would exit 0. -/
def c2Env : PipelineEnv :=
  { scraper := { returncode := 0, stderr := "" },
    loadRaw := { returncode := 0, stderr := "" },
    dbt := { returncode := 0, stderr := "" },
    yoloDetect := { returncode := 1, stderr := "no images" },
    yoloLoad := { returncode := 0, stderr := "" } }

/-- A joined detection fact row as seen by the visual-content query of
src/api/main.py: channel name (via dim_channels), image category and
confidence score (from fct_image_detections). -/
structure DetFactRow where
  channel_name : String
  image_category : String
  confidence_score : ℚ
deriving DecidableEq

/-- First-occurrence distinct (channel, category) pairs: the GROUP BY
keys of the category_counts CTE, in an iteration order fixed as
first-encountered. -/
def distinctKeys : List (String × String) → List (String × String)
  | [] => []
  | k :: ks => k :: (distinctKeys ks).filter (fun k2 => decide (k2 ≠ k))

/-- First-occurrence distinct channel names. -/
def distinctStrings : List String → List String
  | [] => []
  | s :: ss => s :: (distinctStrings ss).filter (fun t => decide (t ≠ s))

/-- A row of the category_counts CTE: one (channel, category) group with
`COUNT(*)` and `AVG(confidence_score)`. -/
structure CategoryCount where
  channel_name : String
  image_category : String
  category_count : Nat
  avg_conf : ℚ
deriving DecidableEq

/-- The category_counts CTE of get_visual_content_stats
(src/api/main.py lines 210-218). -/
def category_counts (rows : List DetFactRow) : List CategoryCount :=
  (distinctKeys (rows.map (fun r => (r.channel_name, r.image_category)))).map
    (fun k =>
      { channel_name := k.1
        image_category := k.2
        category_count :=
          (rows.filter
            (fun r => decide ((r.channel_name, r.image_category) = k))).length
        avg_conf :=
          ((rows.filter
              (fun r => decide ((r.channel_name, r.image_category) = k))).map
            DetFactRow.confidence_score).sum
          / ((rows.filter
              (fun r => decide ((r.channel_name, r.image_category) = k))).length : ℚ) })

/-- The rank-1 row of the top_categories CTE for one channel's category
counts: the first row with maximal `category_count` (`ROW_NUMBER() OVER
(... ORDER BY category_count DESC)`; the order among ties is
implementation-defined and modelled as first-encountered). -/
def topCategory (ccs : List CategoryCount) : Option CategoryCount :=
  ccs.foldl
    (fun acc c =>
      match acc with
      | none => some c
      | some b => if c.category_count > b.category_count then some c else some b)
    none

/-- PostgreSQL `ROUND(x::numeric, 3)`: round to three decimal places,
halves away from zero. -/
def pgRound3 (q : ℚ) : ℚ :=
  if 0 ≤ q then (⌊q * 1000 + 1 / 2⌋ : ℚ) / 1000
  else -((⌊-q * 1000 + 1 / 2⌋ : ℚ) / 1000)

/-- One element of the visual-content report
(api/schemas.py VisualContentStat). -/
structure VisualContentStat where
  channel_name : String
  image_posts : Nat
  avg_confidence : ℚ
  top_category : String
deriving DecidableEq

/-- `get_visual_content_stats` (src/api/main.py lines 203-250): per
channel appearing in the detection facts, `image_posts` is the sum of
that channel's category counts, `avg_confidence` is
`ROUND(AVG(per-category averages), 3)`, `top_category` comes from the
rank-1 row; the output is ordered by `image_posts` descending, and the
endpoint maps `avg_confidence` through `float(x) if x else 0.0` and
`top_category` through `x or "unknown"` (Python truthiness). -/
def get_visual_content_stats (rows : List DetFactRow) : List VisualContentStat :=
  ((distinctStrings (rows.map DetFactRow.channel_name)).filterMap
    (fun ch =>
      match topCategory ((category_counts rows).filter
          (fun c => decide (c.channel_name = ch))) with
      | none => none
      | some top =>
        some { channel_name := ch
               image_posts :=
                 (((category_counts rows).filter
                     (fun c => decide (c.channel_name = ch))).map
                   CategoryCount.category_count).sum
               avg_confidence :=
                 (fun avg => if avg ≠ 0 then avg else 0)
                   (pgRound3
                     ((((category_counts rows).filter
                          (fun c => decide (c.channel_name = ch))).map
                        CategoryCount.avg_conf).sum
                      / (((category_counts rows).filter
                           (fun c => decide (c.channel_name = ch))).length : ℚ)))
               top_category :=
                 if top.image_category ≠ "" then top.image_category
                 else "unknown" })).mergeSort
    (fun a b => decide (b.image_posts ≤ a.image_posts))

/-- Concrete detection fact row for C8: channel "ch", category "other",
confidence 0.1234 — a value with four decimal places, as the detection
script's 4-decimal rounding routinely produces. -/
def c8Row : DetFactRow :=
  { channel_name := "ch", image_category := "other",
    confidence_score := 1234/10000 }

lemma foldl_max_mem : ∀ (cs : List ℚ) (c : ℚ), cs.foldl max c ∈ c :: cs := by
  intro cs
  induction cs with
  | nil => intro c; simp
  | cons a as ih =>
    intro c
    have h := ih (max c a)
    simp only [List.foldl_cons]
    rcases List.mem_cons.mp h with h1 | h1
    · rcases le_total c a with hle | hle
      · rw [h1, max_eq_right hle]; simp
      · rw [h1, max_eq_left hle]; simp
    · simp [h1]

lemma le_foldl_max : ∀ (cs : List ℚ) (c x : ℚ), x ∈ c :: cs → x ≤ cs.foldl max c := by
  intro cs
  induction cs with
  | nil => intro c x hx; simp at hx; simp [hx]
  | cons a as ih =>
    intro c x hx
    simp only [List.foldl_cons]
    have hinit : max c a ≤ as.foldl max (max c a) := ih (max c a) (max c a) (by simp)
    rcases List.mem_cons.mp hx with h1 | h1
    · subst h1; exact le_trans (le_max_left x a) hinit
    · rcases List.mem_cons.mp h1 with h2 | h2
      · subst h2; exact le_trans (le_max_right c x) hinit
      · exact ih (max c a) x (by simp [h2])

lemma pyMax_mem {l : List ℚ} {m : ℚ} (h : pyMax l = some m) : m ∈ l := by
  cases l with
  | nil => simp [pyMax] at h
  | cons c cs =>
    simp only [pyMax, Option.some.injEq] at h
    rw [← h]
    exact foldl_max_mem cs c

lemma pyMax_ub {l : List ℚ} {m : ℚ} (h : pyMax l = some m) : ∀ x ∈ l, x ≤ m := by
  cases l with
  | nil => simp
  | cons c cs =>
    simp only [pyMax, Option.some.injEq] at h
    intro x hx
    rw [← h]
    exact le_foldl_max cs c x hx

lemma pyMax_perm {l l' : List ℚ} (h : l.Perm l') : pyMax l = pyMax l' := by
  cases l with
  | nil =>
    have : l' = [] := h.symm.eq_nil
    rw [this]
  | cons c cs =>
    cases l' with
    | nil => exact absurd h.eq_nil (by simp)
    | cons c' cs' =>
      have h1 : pyMax (c :: cs) = some (cs.foldl max c) := rfl
      have h2 : pyMax (c' :: cs') = some (cs'.foldl max c') := rfl
      rw [h1, h2]
      congr 1
      apply le_antisymm
      · exact le_foldl_max cs' c' _ (h.mem_iff.mp (foldl_max_mem cs c))
      · exact le_foldl_max cs c _ (h.mem_iff.mpr (foldl_max_mem cs' c'))

lemma contains_eq_decide (l : List String) (a : String) :
    l.contains a = decide (a ∈ l) := by
  by_cases h : a ∈ l
  · rw [decide_eq_true h, List.contains_eq_any_beq, List.any_eq_true]
    exact ⟨a, h, by simp⟩
  · rw [decide_eq_false h]
    cases he : (l.contains a)
    · rfl
    · rw [List.contains_eq_any_beq, List.any_eq_true] at he
      obtain ⟨x, hx, hbeq⟩ := he
      exact absurd ((eq_of_beq hbeq) ▸ hx) h

lemma contains_eq_of_perm {l l' : List String} (h : l.Perm l') (a : String) :
    l.contains a = l'.contains a := by
  rw [contains_eq_decide, contains_eq_decide]
  exact decide_eq_decide.mpr h.mem_iff

lemma any_eq_of_perm {l l' : List String} (h : l.Perm l') (p : String → Bool) :
    l.any p = l'.any p := by
  by_cases hm : ∃ x ∈ l, p x = true
  · have hm' : ∃ x ∈ l', p x = true := by
      obtain ⟨x, hx, hp⟩ := hm
      exact ⟨x, h.mem_iff.mp hx, hp⟩
    rw [List.any_eq_true.mpr hm, List.any_eq_true.mpr hm']
  · have hm' : ¬ ∃ x ∈ l', p x = true := by
      rintro ⟨x, hx, hp⟩
      exact hm ⟨x, h.mem_iff.mpr hx, hp⟩
    have e1 : l.any p = false := by
      cases he : l.any p
      · rfl
      · exact absurd (List.any_eq_true.mp he) hm
    have e2 : l'.any p = false := by
      cases he : l'.any p
      · rfl
      · exact absurd (List.any_eq_true.mp he) hm'
    rw [e1, e2]

/-- `classify_image` is invariant under permutation of its input: every
ingredient (label membership, keyword membership, maximal confidence)
depends only on the multiset of detections. -/
lemma classify_image_perm {dets dets' : List Detection} (h : dets.Perm dets') :
    classify_image dets = classify_image dets' := by
  cases dets with
  | nil =>
    have : dets' = [] := h.symm.eq_nil
    rw [this]
  | cons d ds =>
    cases dets' with
    | nil => exact absurd h.eq_nil (by simp)
    | cons d' ds' =>
      have hlab : ((d :: ds).map Detection.label).Perm ((d' :: ds').map Detection.label) :=
        h.map Detection.label
      have hconf : pyMax ((d :: ds).map Detection.conf)
          = pyMax ((d' :: ds').map Detection.conf) :=
        pyMax_perm (h.map Detection.conf)
      show classify_image (d :: ds) = classify_image (d' :: ds')
      simp only [classify_image]
      rw [contains_eq_of_perm hlab "person",
          any_eq_of_perm hlab (fun obj => PRODUCT_KEYWORDS.contains obj), hconf]

/-- C4: for every detection set containing no label "person" and no label
in the product-keyword set, `classify_image` returns category `other` with
confidence equal to the maximum confidence in the input (a member of the
input that bounds every input confidence from above), and on the empty
detection set it returns `other` with confidence 0. -/
theorem classify_other_of_no_person_no_product (dets : List Detection)
    (hp : "person" ∉ dets.map Detection.label)
    (hk : ∀ l ∈ dets.map Detection.label, l ∉ PRODUCT_KEYWORDS) :
    (classify_image dets).1 = "other" ∧
    (dets = [] → (classify_image dets).2 = 0) ∧
    (∀ d ∈ dets, d.conf ≤ (classify_image dets).2) ∧
    (dets ≠ [] → ∃ d ∈ dets, (classify_image dets).2 = d.conf) := by
  cases dets with
  | nil => exact ⟨rfl, fun _ => rfl, by simp, by simp⟩
  | cons d ds =>
    have hperson : ((d :: ds).map Detection.label).contains "person" = false := by
      rw [contains_eq_decide]
      exact decide_eq_false hp
    have hprod : ((d :: ds).map Detection.label).any
        (fun obj => PRODUCT_KEYWORDS.contains obj) = false := by
      cases he : ((d :: ds).map Detection.label).any
          (fun obj => PRODUCT_KEYWORDS.contains obj)
      · rfl
      · obtain ⟨x, hx, hpx⟩ := List.any_eq_true.mp he
        rw [contains_eq_decide] at hpx
        exact absurd (of_decide_eq_true hpx) (hk x hx)
    obtain ⟨m, hm⟩ : ∃ m, pyMax ((d :: ds).map Detection.conf) = some m := ⟨_, rfl⟩
    have hres : classify_image (d :: ds) = ("other", m) := by
      simp only [classify_image, hperson, hprod, hm]
      simp
    refine ⟨by rw [hres], by simp, ?_, ?_⟩
    · intro x hx
      rw [hres]
      exact pyMax_ub hm x.conf (List.mem_map_of_mem Detection.conf hx)
    · intro _
      have hmm := pyMax_mem hm
      obtain ⟨x, hx, hxe⟩ := List.mem_map.mp hmm
      exact ⟨x, hx, by rw [hres, ← hxe]⟩

/-- Concrete instance of `classify_other_of_no_person_no_product`: two
detections, labels "dog" and "cat", confidences 1/2 and 3/4. -/
theorem classify_other_witness :
    (classify_image c4Dets).1 = "other" ∧
    (c4Dets = [] → (classify_image c4Dets).2 = 0) ∧
    (∀ d ∈ c4Dets, d.conf ≤ (classify_image c4Dets).2) ∧
    (c4Dets ≠ [] → ∃ d ∈ c4Dets, (classify_image c4Dets).2 = d.conf) :=
  classify_other_of_no_person_no_product c4Dets (by decide) (by decide)

/-- C5: for every detection set containing both the label "person" and
some label in the product-keyword set, `classify_image` returns category
`promotional`, and the whole result is invariant under any permutation of
the input detections. -/
theorem classify_promotional_of_person_and_product (dets dets' : List Detection)
    (hperm : dets.Perm dets')
    (hp : "person" ∈ dets.map Detection.label)
    (hk : ∃ l ∈ dets.map Detection.label, l ∈ PRODUCT_KEYWORDS) :
    (classify_image dets).1 = "promotional" ∧
    classify_image dets' = classify_image dets := by
  refine ⟨?_, (classify_image_perm hperm).symm⟩
  cases dets with
  | nil => simp at hp
  | cons d ds =>
    have hperson : ((d :: ds).map Detection.label).contains "person" = true := by
      rw [contains_eq_decide]
      exact decide_eq_true hp
    have hprod : ((d :: ds).map Detection.label).any
        (fun obj => PRODUCT_KEYWORDS.contains obj) = true := by
      rw [List.any_eq_true]
      obtain ⟨l, hl, hlk⟩ := hk
      refine ⟨l, hl, ?_⟩
      rw [contains_eq_decide]
      exact decide_eq_true hlk
    simp only [classify_image, hperson, hprod, Bool.and_self, if_true]

/-- Concrete instance of `classify_promotional_of_person_and_product`:
detections "person" and "bottle", in both orders. -/
theorem classify_promotional_witness :
    (classify_image c5Dets).1 = "promotional" ∧
    classify_image c5DetsRev = classify_image c5Dets :=
  classify_promotional_of_person_and_product c5Dets c5DetsRev
    (by unfold c5Dets c5DetsRev; exact List.Perm.swap _ _ _) (by decide) (by decide)

/-- C3: message loading is idempotent on the natural key.  If the table
has no row with the key of `r`, inserting `r` and then any record with
the same (message identifier, channel name) leaves the table extended by
exactly the original `r`: the second insert is a complete no-op, there is
exactly one row for that key, and its attributes are those of `r`. -/
theorem message_load_idempotent (table : List MessageRow) (r r' : MessageRow)
    (hk : msgKey r' = msgKey r)
    (habs : ∀ t ∈ table, msgKey t ≠ msgKey r) :
    insertMessage (insertMessage table r) r' = table ++ [r] ∧
    (insertMessage (insertMessage table r) r').filter
      (fun t => decide (msgKey t = msgKey r)) = [r] := by
  have h1 : insertMessage table r = table ++ [r] := by
    unfold insertMessage
    rw [if_neg]
    intro hany
    obtain ⟨t, ht, hk2⟩ := List.any_eq_true.mp hany
    exact habs t ht (of_decide_eq_true hk2)
  have h2 : insertMessage (table ++ [r]) r' = table ++ [r] := by
    unfold insertMessage
    rw [if_pos]
    exact List.any_eq_true.mpr ⟨r, by simp, decide_eq_true hk.symm⟩
  refine ⟨by rw [h1, h2], ?_⟩
  rw [h1, h2, List.filter_append]
  have hf1 : table.filter (fun t => decide (msgKey t = msgKey r)) = [] := by
    rw [List.filter_eq_nil_iff]
    intro t ht
    simpa using habs t ht
  rw [hf1]
  simp

/-- Concrete instance of `message_load_idempotent`: loading `c3Row` and
then a same-key variant with different attributes keeps exactly the
original row. -/
theorem message_load_idempotent_witness :
    insertMessage (insertMessage [] c3Row) c3RowVariant = [] ++ [c3Row] ∧
    (insertMessage (insertMessage [] c3Row) c3RowVariant).filter
      (fun t => decide (msgKey t = msgKey c3Row)) = [c3Row] :=
  message_load_idempotent [] c3Row c3RowVariant (by decide) (by simp)

/-- C10: the message loader filters by Python truthiness, not presence.
A record whose message identifier is the integer 0 or whose channel name
is the empty string is dropped exactly as if the field were missing, and
loading a file holding only such a record stores nothing. -/
theorem loader_filters_by_truthiness (m : RawMsg)
    (h : m.message_id = some 0 ∨ m.channel_name = some "") :
    toRecord m = none ∧
    toRecord { m with message_id := none } = none ∧
    toRecord { m with channel_name := none } = none ∧
    (∀ file table, load_raw_data [(file, Except.ok [m])] table
        = (table, [LogEvent.foundFiles 1])) := by
  have htm : toRecord m = none := by
    unfold toRecord
    rw [if_neg]
    rw [Bool.and_eq_true]
    rintro ⟨h1, h2⟩
    rcases h with h | h
    · rw [h] at h1; simp [truthyInt] at h1
    · rw [h] at h2; simp [truthyStr] at h2
  refine ⟨htm, ?_, ?_, ?_⟩
  · unfold toRecord; simp [truthyInt]
  · unfold toRecord; simp [truthyStr]
  · intro file table
    unfold load_raw_data processFiles
    simp [htm]

/-- Concrete instance of `loader_filters_by_truthiness` at `c10Msg`
(message id 0, channel "pharma"). -/
theorem loader_filters_by_truthiness_witness :
    toRecord c10Msg = none ∧
    toRecord { c10Msg with message_id := none } = none ∧
    toRecord { c10Msg with channel_name := none } = none ∧
    load_raw_data [("f.json", Except.ok [c10Msg])] [] = ([], [LogEvent.foundFiles 1]) := by
  have h := loader_filters_by_truthiness c10Msg (Or.inl rfl)
  exact ⟨h.1, h.2.1, h.2.2.1, h.2.2.2 "f.json" []⟩

lemma processMsgs_fold (msgs : List RawMsg) (recs : List MessageRow)
    (cts : List (String × Nat)) (lgs : List LogEvent) :
    (msgs.foldl
      (fun acc2 msg =>
        match toRecord msg with
        | none => acc2
        | some r => (acc2.1 ++ [r], bumpCount acc2.2.1 r.channel_name, acc2.2.2))
      (recs, cts, lgs)).1 = recs ++ msgs.filterMap toRecord ∧
    (msgs.foldl
      (fun acc2 msg =>
        match toRecord msg with
        | none => acc2
        | some r => (acc2.1 ++ [r], bumpCount acc2.2.1 r.channel_name, acc2.2.2))
      (recs, cts, lgs)).2.2 = lgs := by
  induction msgs generalizing recs cts lgs with
  | nil => simp
  | cons m ms ih =>
    cases htm : toRecord m with
    | none =>
      rw [List.foldl_cons]
      simp only [htm]
      rw [List.filterMap_cons_none htm]
      exact ih recs cts lgs
    | some r =>
      rw [List.foldl_cons]
      simp only [htm]
      rw [List.filterMap_cons_some htm]
      obtain ⟨ha, hb⟩ := ih (recs ++ [r]) (bumpCount cts r.channel_name) lgs
      exact ⟨by rw [ha]; simp, hb⟩

lemma processFiles_single_ok (file : String) (msgs : List RawMsg) :
    (processFiles [(file, Except.ok msgs)]).1 = msgs.filterMap toRecord ∧
    (processFiles [(file, Except.ok msgs)]).2.2 = [] := by
  unfold processFiles
  rw [List.foldl_cons, List.foldl_nil]
  exact processMsgs_fold msgs [] [] []

lemma insertMessages_of_disjoint (rs : List MessageRow) (table : List MessageRow)
    (hdis : ∀ t ∈ table, ∀ r ∈ rs, msgKey t ≠ msgKey r)
    (hnodup : (rs.map msgKey).Nodup) :
    insertMessages table rs = table ++ rs := by
  induction rs generalizing table with
  | nil => simp [insertMessages]
  | cons r rs ih =>
    have h1 : insertMessage table r = table ++ [r] := by
      unfold insertMessage
      rw [if_neg]
      intro hany
      obtain ⟨t, ht, hk2⟩ := List.any_eq_true.mp hany
      exact hdis t ht r (by simp) (of_decide_eq_true hk2)
    have hstep : insertMessages table (r :: rs) = insertMessages (table ++ [r]) rs := by
      unfold insertMessages
      rw [List.foldl_cons, h1]
    rw [hstep, ih (table ++ [r]) ?_ ?_]
    · simp
    · intro t ht r2 hr2
      rcases List.mem_append.mp ht with ht1 | ht1
      · exact hdis t ht1 r2 (by simp [hr2])
      · have : t = r := by simpa using ht1
        subst this
        rw [List.map_cons, List.nodup_cons] at hnodup
        intro he
        exact hnodup.1 (he ▸ List.mem_map_of_mem msgKey hr2)
    · rw [List.map_cons, List.nodup_cons] at hnodup
      exact hnodup.2

/-- C9 (amended): a single-file batch whose records include malformed
ones alongside nine valid ones stores exactly the nine valid rows (the
malformed record never aborts the batch); the loader logs the file
count, the attempted-record count of nine and per-channel counts, and
logs no skip notice of any kind (record skips are silent). -/
theorem load_skips_malformed (file : String) (msgs : List RawMsg)
    (hone : msgs.countP (fun m => (toRecord m).isNone) = 1)
    (hnine : (msgs.filterMap toRecord).length = 9)
    (hnodup : ((msgs.filterMap toRecord).map msgKey).Nodup) :
    (load_raw_data [(file, Except.ok msgs)] []).1 = msgs.filterMap toRecord ∧
    (∃ ccs, (load_raw_data [(file, Except.ok msgs)] []).2
        = LogEvent.foundFiles 1 :: LogEvent.attemptedLoad 9 :: ccs ∧
      ∀ e ∈ ccs, ∃ ch n, e = LogEvent.channelCount ch n) ∧
    (∀ s, LogEvent.skippedInvalidJson s ∉ (load_raw_data [(file, Except.ok msgs)] []).2) := by
  obtain ⟨h1, h3⟩ := processFiles_single_ok file msgs
  have hne : (processFiles [(file, Except.ok msgs)]).1.isEmpty = false := by
    rw [h1, List.isEmpty_eq_false]
    intro hnil
    rw [hnil] at hnine
    simp at hnine
  have hload : load_raw_data [(file, Except.ok msgs)] []
      = (insertMessages [] (msgs.filterMap toRecord),
         (LogEvent.foundFiles 1 :: [])
           ++ [LogEvent.attemptedLoad (msgs.filterMap toRecord).length]
           ++ (processFiles [(file, Except.ok msgs)]).2.1.map
                (fun p => LogEvent.channelCount p.1 p.2)) := by
    unfold load_raw_data
    rw [hne, h3, h1]
    simp
  have hins : insertMessages [] (msgs.filterMap toRecord) = msgs.filterMap toRecord := by
    rw [insertMessages_of_disjoint (msgs.filterMap toRecord) [] (by simp) hnodup]
    simp
  refine ⟨by rw [hload, hins], ?_, ?_⟩
  · refine ⟨(processFiles [(file, Except.ok msgs)]).2.1.map
        (fun p => LogEvent.channelCount p.1 p.2), ?_, ?_⟩
    · rw [hload, hnine]
      rfl
    · intro e he
      obtain ⟨p, _, hpe⟩ := List.mem_map.mp he
      exact ⟨p.1, p.2, hpe.symm⟩
  · intro s hmem
    rw [hload] at hmem
    rcases List.mem_append.mp hmem with hmem1 | hmem1
    · rcases List.mem_append.mp hmem1 with hmem2 | hmem2
      · simp at hmem2
      · simp at hmem2
    · obtain ⟨p, _, hpe⟩ := List.mem_map.mp hmem1
      exact LogEvent.noConfusion hpe

/-- Concrete instance of `load_skips_malformed` at `c9Batch` (nine valid
records, one record missing its message identifier). -/
theorem load_skips_malformed_witness :
    (load_raw_data [("f.json", Except.ok c9Batch)] []).1 = c9Batch.filterMap toRecord ∧
    (∃ ccs, (load_raw_data [("f.json", Except.ok c9Batch)] []).2
        = LogEvent.foundFiles 1 :: LogEvent.attemptedLoad 9 :: ccs ∧
      ∀ e ∈ ccs, ∃ ch n, e = LogEvent.channelCount ch n) ∧
    (∀ s, LogEvent.skippedInvalidJson s ∉ (load_raw_data [("f.json", Except.ok c9Batch)] []).2) :=
  load_skips_malformed "f.json" c9Batch (by decide) (by decide) (by decide)

/-- C9, as stated, is false on the code: the concrete ten-record batch
(nine valid, one missing its message identifier) stores nine rows, but
the complete console output is the file count, the attempted-record
count of nine and the per-channel count — no skip count of one is
logged anywhere. -/
theorem load_no_skip_count_logged :
    (load_raw_data [("f.json", Except.ok c9Batch)] []).1.length = 9 ∧
    (load_raw_data [("f.json", Except.ok c9Batch)] []).2 =
      [LogEvent.foundFiles 1, LogEvent.attemptedLoad 9,
       LogEvent.channelCount "testch" 9] := by decide

/-- C6, as stated, is false on the code: a detection record whose
confidence value is the malformed string "abc" does not get a stored
score of 0.0 — `float` raises `ValueError` and the whole load fails
before any insert. -/
theorem malformed_confidence_aborts_load :
    load_yolo_results [c6BadRow] [] =
      Except.error "could not convert string to float: abc" := by rfl

/-- C6 (amended): an absent (empty) confidence value is stored as 0.0,
but a malformed non-empty value makes `float` raise, aborting the whole
load with an error instead of defaulting. -/
theorem confidence_default_or_abort (row bad : YoloCsvRow) (table : List YoloRow)
    (hempty : row.confidence_score = "")
    (hbadne : bad.confidence_score ≠ "")
    (hbad : pyFloat bad.confidence_score = none) :
    load_yolo_results [row] table =
      Except.ok (table ++ [{ message_id := row.message_id,
                             channel_name := pyLower (pyStrip row.channel_name),
                             detected_objects := row.detected_objects,
                             confidence_score := 0,
                             image_category := row.image_category }]) ∧
    (∀ rest table2, load_yolo_results (bad :: rest) table2
        = Except.error ("could not convert string to float: " ++ bad.confidence_score)) := by
  have hp : parseYoloRow row
      = Except.ok { message_id := row.message_id,
                    channel_name := pyLower (pyStrip row.channel_name),
                    detected_objects := row.detected_objects,
                    confidence_score := 0,
                    image_category := row.image_category } := by
    unfold parseYoloRow
    rw [hempty]
    rfl
  have hb : parseYoloRow bad
      = Except.error ("could not convert string to float: " ++ bad.confidence_score) := by
    unfold parseYoloRow
    rw [if_pos hbadne, hbad]
  constructor
  · unfold load_yolo_results parseYoloRows
    rw [hp]
    rfl
  · intro rest table2
    unfold load_yolo_results parseYoloRows
    rw [hb]

/-- Concrete instance of `confidence_default_or_abort`: an empty
confidence value stores 0.0, the malformed value "abc" aborts the load. -/
theorem confidence_default_or_abort_witness :
    load_yolo_results [c6EmptyRow] [] =
      Except.ok ([] ++ [{ message_id := c6EmptyRow.message_id,
                          channel_name := pyLower (pyStrip c6EmptyRow.channel_name),
                          detected_objects := c6EmptyRow.detected_objects,
                          confidence_score := 0,
                          image_category := c6EmptyRow.image_category }]) ∧
    (∀ rest table2, load_yolo_results (c6BadRow :: rest) table2
        = Except.error ("could not convert string to float: "
            ++ c6BadRow.confidence_score)) :=
  confidence_default_or_abort c6EmptyRow c6BadRow [] (by rfl) (by decide) (by rfl)

lemma parseYoloRows_mem {rows : List YoloCsvRow} {recs : List YoloRow}
    (h : parseYoloRows rows = Except.ok recs) :
    ∀ r ∈ recs, ∃ row ∈ rows, parseYoloRow row = Except.ok r := by
  induction rows generalizing recs with
  | nil =>
    unfold parseYoloRows at h
    cases h
    simp
  | cons row rest ih =>
    unfold parseYoloRows at h
    cases hp : parseYoloRow row with
    | error e => rw [hp] at h; cases h
    | ok r0 =>
      rw [hp] at h
      cases hr : parseYoloRows rest with
      | error e => rw [hr] at h; cases h
      | ok rs =>
        rw [hr] at h
        cases h
        intro r hrm
        rcases List.mem_cons.mp hrm with h1 | h1
        · exact ⟨row, by simp, by rw [hp, h1]⟩
        · obtain ⟨row2, hrow2, he⟩ := ih hr r h1
          exact ⟨row2, by simp [hrow2], he⟩

/-- Every record accepted by the row parser carries the stripped,
lower-cased channel name of its CSV row. -/
lemma parseYoloRow_channel {row : YoloCsvRow} {r : YoloRow}
    (h : parseYoloRow row = Except.ok r) :
    r.channel_name = pyLower (pyStrip row.channel_name) := by
  unfold parseYoloRow at h
  cases hc : (if row.confidence_score ≠ "" then
           match pyFloat row.confidence_score with
           | some q => Except.ok q
           | none =>
             Except.error ("could not convert string to float: " ++ row.confidence_score)
         else Except.ok (0 : ℚ)) with
  | error e => rw [hc] at h; cases h
  | ok conf => rw [hc] at h; cases h; rfl

/-- C7: every row stored by the detection loader (beyond the prior table
contents) has as channel name the input channel name lower-cased and
trimmed of surrounding whitespace; in particular any rows for channels
"ChannelX" and "channelx" are both stored under "channelx". -/
theorem detection_channel_normalized (rows : List YoloCsvRow)
    (table table2 : List YoloRow)
    (h : load_yolo_results rows table = Except.ok table2) :
    (∀ r ∈ table2, r ∈ table ∨ ∃ row ∈ rows,
        r.channel_name = pyLower (pyStrip row.channel_name)) ∧
    (∀ row : YoloCsvRow,
      (row.channel_name = "ChannelX" ∨ row.channel_name = "channelx") →
      ∀ r, parseYoloRow row = Except.ok r → r.channel_name = "channelx") := by
  constructor
  · unfold load_yolo_results at h
    cases hr : parseYoloRows rows with
    | error e => rw [hr] at h; cases h
    | ok recs =>
      rw [hr] at h
      cases h
      intro r hrm
      rcases List.mem_append.mp hrm with h1 | h1
      · exact Or.inl h1
      · obtain ⟨row, hrow, he⟩ := parseYoloRows_mem hr r h1
        exact Or.inr ⟨row, hrow, parseYoloRow_channel he⟩
  · intro row hcase r hok
    rw [parseYoloRow_channel hok]
    rcases hcase with hch | hch <;> rw [hch] <;> rfl

/-- Concrete instance of `detection_channel_normalized`: loading rows for
"ChannelX" and "channelx" stores both under "channelx". -/
theorem detection_channel_normalized_witness :
    (∀ r ∈ (([] : List YoloRow)
        ++ [{ message_id := "3", channel_name := "channelx",
              detected_objects := "bottle", confidence_score := 0,
              image_category := "product_display" },
            { message_id := "4", channel_name := "channelx",
              detected_objects := "person", confidence_score := 0,
              image_category := "lifestyle" }]),
      r ∈ ([] : List YoloRow) ∨ ∃ row ∈ [c7RowUpper, c7RowLower],
        r.channel_name = pyLower (pyStrip row.channel_name)) ∧
    (∀ row : YoloCsvRow,
      (row.channel_name = "ChannelX" ∨ row.channel_name = "channelx") →
      ∀ r, parseYoloRow row = Except.ok r → r.channel_name = "channelx") :=
  detection_channel_normalized [c7RowUpper, c7RowLower] []
    ([] ++ [{ message_id := "3", channel_name := "channelx",
              detected_objects := "bottle", confidence_score := 0,
              image_category := "product_display" },
            { message_id := "4", channel_name := "channelx",
              detected_objects := "person", confidence_score := 0,
              image_category := "lifestyle" }])
    (by rfl)

lemma pipeline_run_scrape_fail (env : PipelineEnv)
    (h : env.scraper.returncode ≠ 0) :
    telegram_medical_pipeline env
      = ([Proc.scraperPy],
         RunState.FAILED Stage.SCRAPE ("Scraping failed: " ++ env.scraper.stderr)) := by
  unfold telegram_medical_pipeline scrape_telegram_data
  rw [if_pos h]

lemma pipeline_run_load_fail (env : PipelineEnv)
    (hs : env.scraper.returncode = 0) (h : env.loadRaw.returncode ≠ 0) :
    telegram_medical_pipeline env
      = ([Proc.scraperPy, Proc.loadRawPy],
         RunState.FAILED Stage.LOAD ("Loading failed: " ++ env.loadRaw.stderr)) := by
  unfold telegram_medical_pipeline scrape_telegram_data load_raw_to_postgres
  rw [if_neg (by simp [hs]), if_pos h]
  rfl

lemma pipeline_run_dbt_fail (env : PipelineEnv)
    (hs : env.scraper.returncode = 0) (hl : env.loadRaw.returncode = 0)
    (h : env.dbt.returncode ≠ 0) :
    telegram_medical_pipeline env
      = ([Proc.scraperPy, Proc.loadRawPy, Proc.dbtRun],
         RunState.FAILED Stage.TRANSFORM ("dbt run failed: " ++ env.dbt.stderr)) := by
  unfold telegram_medical_pipeline scrape_telegram_data load_raw_to_postgres
    run_dbt_transformations
  rw [if_neg (by simp [hs]), if_neg (by simp [hl]), if_pos h]
  rfl

lemma pipeline_run_detect_fail (env : PipelineEnv)
    (hs : env.scraper.returncode = 0) (hl : env.loadRaw.returncode = 0)
    (hd : env.dbt.returncode = 0) (h : env.yoloDetect.returncode ≠ 0) :
    telegram_medical_pipeline env
      = ([Proc.scraperPy, Proc.loadRawPy, Proc.dbtRun, Proc.yoloDetectPy],
         RunState.FAILED Stage.ENRICH
           ("YOLO detection failed: " ++ env.yoloDetect.stderr)) := by
  unfold telegram_medical_pipeline scrape_telegram_data load_raw_to_postgres
    run_dbt_transformations run_yolo_enrichment
  rw [if_neg (by simp [hs]), if_neg (by simp [hl]), if_neg (by simp [hd]), if_pos h]
  rfl

lemma pipeline_run_yolo_load_fail (env : PipelineEnv)
    (hs : env.scraper.returncode = 0) (hl : env.loadRaw.returncode = 0)
    (hd : env.dbt.returncode = 0) (hy : env.yoloDetect.returncode = 0)
    (h : env.yoloLoad.returncode ≠ 0) :
    telegram_medical_pipeline env
      = ([Proc.scraperPy, Proc.loadRawPy, Proc.dbtRun, Proc.yoloDetectPy,
          Proc.yoloLoadPy],
         RunState.FAILED Stage.ENRICH
           ("YOLO loading failed: " ++ env.yoloLoad.stderr)) := by
  unfold telegram_medical_pipeline scrape_telegram_data load_raw_to_postgres
    run_dbt_transformations run_yolo_enrichment
  rw [if_neg (by simp [hs]), if_neg (by simp [hl]), if_neg (by simp [hd]),
    if_neg (by simp [hy]), if_pos h]
  rfl

lemma pipeline_run_done (env : PipelineEnv)
    (hs : env.scraper.returncode = 0) (hl : env.loadRaw.returncode = 0)
    (hd : env.dbt.returncode = 0) (hy : env.yoloDetect.returncode = 0)
    (hy2 : env.yoloLoad.returncode = 0) :
    telegram_medical_pipeline env
      = ([Proc.scraperPy, Proc.loadRawPy, Proc.dbtRun, Proc.yoloDetectPy,
          Proc.yoloLoadPy], RunState.DONE) := by
  unfold telegram_medical_pipeline scrape_telegram_data load_raw_to_postgres
    run_dbt_transformations run_yolo_enrichment
  rw [if_neg (by simp [hs]), if_neg (by simp [hl]), if_neg (by simp [hd]),
    if_neg (by simp [hy]), if_neg (by simp [hy2])]
  rfl

/-- C1: a stage's process is invoked only after every predecessor
stage's process exited 0 (the four ordering implications hold for every
run); in particular, when Scrape exits 0, Load exits 0 and Transform
exits non-zero, neither enrichment process is ever invoked and the run
ends FAILED at stage TRANSFORM with dbt's error output captured. -/
theorem pipeline_fail_fast (env : PipelineEnv)
    (hs : env.scraper.returncode = 0) (hl : env.loadRaw.returncode = 0)
    (ht : env.dbt.returncode ≠ 0) :
    (telegram_medical_pipeline env).2
      = RunState.FAILED Stage.TRANSFORM ("dbt run failed: " ++ env.dbt.stderr) ∧
    Proc.yoloDetectPy ∉ (telegram_medical_pipeline env).1 ∧
    Proc.yoloLoadPy ∉ (telegram_medical_pipeline env).1 ∧
    (∀ env2 : PipelineEnv,
      (Proc.loadRawPy ∈ (telegram_medical_pipeline env2).1 →
        env2.scraper.returncode = 0) ∧
      (Proc.dbtRun ∈ (telegram_medical_pipeline env2).1 →
        env2.scraper.returncode = 0 ∧ env2.loadRaw.returncode = 0) ∧
      (Proc.yoloDetectPy ∈ (telegram_medical_pipeline env2).1 →
        env2.scraper.returncode = 0 ∧ env2.loadRaw.returncode = 0 ∧
        env2.dbt.returncode = 0) ∧
      (Proc.yoloLoadPy ∈ (telegram_medical_pipeline env2).1 →
        env2.scraper.returncode = 0 ∧ env2.loadRaw.returncode = 0 ∧
        env2.dbt.returncode = 0 ∧ env2.yoloDetect.returncode = 0)) := by
  have hrun := pipeline_run_dbt_fail env hs hl ht
  refine ⟨by rw [hrun], by rw [hrun]; simp, by rw [hrun]; simp, ?_⟩
  intro env2
  by_cases h1 : env2.scraper.returncode = 0
  · by_cases h2 : env2.loadRaw.returncode = 0
    · by_cases h3 : env2.dbt.returncode = 0
      · by_cases h4 : env2.yoloDetect.returncode = 0
        · by_cases h5 : env2.yoloLoad.returncode = 0
          · rw [pipeline_run_done env2 h1 h2 h3 h4 h5]
            exact ⟨fun _ => h1, fun _ => ⟨h1, h2⟩, fun _ => ⟨h1, h2, h3⟩,
              fun _ => ⟨h1, h2, h3, h4⟩⟩
          · rw [pipeline_run_yolo_load_fail env2 h1 h2 h3 h4 h5]
            exact ⟨fun _ => h1, fun _ => ⟨h1, h2⟩, fun _ => ⟨h1, h2, h3⟩,
              fun _ => ⟨h1, h2, h3, h4⟩⟩
        · rw [pipeline_run_detect_fail env2 h1 h2 h3 h4]
          refine ⟨fun _ => h1, fun _ => ⟨h1, h2⟩, fun _ => ⟨h1, h2, h3⟩, ?_⟩
          intro hmem
          simp at hmem
      · rw [pipeline_run_dbt_fail env2 h1 h2 h3]
        refine ⟨fun _ => h1, fun _ => ⟨h1, h2⟩, ?_, ?_⟩ <;>
          (intro hmem; simp at hmem)
    · rw [pipeline_run_load_fail env2 h1 h2]
      refine ⟨fun _ => h1, ?_, ?_, ?_⟩ <;>
        (intro hmem; simp at hmem)
  · rw [pipeline_run_scrape_fail env2 h1]
    refine ⟨?_, ?_, ?_, ?_⟩ <;>
      (intro hmem; simp at hmem)

/-- Concrete instance of `pipeline_fail_fast` at `c1Env` (scrape 0,
load 0, dbt exits 1 with stderr "boom"). -/
theorem pipeline_fail_fast_witness :
    (telegram_medical_pipeline c1Env).2
      = RunState.FAILED Stage.TRANSFORM ("dbt run failed: " ++ c1Env.dbt.stderr) ∧
    Proc.yoloDetectPy ∉ (telegram_medical_pipeline c1Env).1 ∧
    Proc.yoloLoadPy ∉ (telegram_medical_pipeline c1Env).1 :=
  ⟨(pipeline_fail_fast c1Env rfl rfl (by decide)).1,
   (pipeline_fail_fast c1Env rfl rfl (by decide)).2.1,
   (pipeline_fail_fast c1Env rfl rfl (by decide)).2.2.1⟩

/-- C2, as stated, is false on the code: in the api variant of the
enrich op (src/api/pipeline.py), with the detection script exiting 1,
the loading script — the second sub-step — is still invoked, though the
stage is marked failed. -/
theorem enrich_api_runs_second_substep_after_first_fails :
    c2Env.yoloDetect.returncode ≠ 0 ∧
    Proc.yoloLoadPy ∈ (run_yolo_enrichment_api c2Env).1 ∧
    (run_yolo_enrichment_api c2Env).2 = Except.error "YOLO enrichment failed" :=
  ⟨by decide, by decide, by rfl⟩

/-- C2 (amended): in the subprocess-based enrich op (src/pipeline.py),
when the first sub-step (the detection script) exits non-zero the second
sub-step is not attempted; in the api variant (src/api/pipeline.py) both
sub-steps are always invoked; in both variants the stage succeeds exactly
when both sub-steps exit 0, i.e. it is marked failed whenever either
sub-step fails. -/
theorem enrich_substeps_fail_handling (env : PipelineEnv)
    (h : env.yoloDetect.returncode ≠ 0) :
    (run_yolo_enrichment env).1 = [Proc.yoloDetectPy] ∧
    (∀ env2 : PipelineEnv,
      ((run_yolo_enrichment env2).2 = Except.ok () ↔
        env2.yoloDetect.returncode = 0 ∧ env2.yoloLoad.returncode = 0) ∧
      ((run_yolo_enrichment_api env2).2 = Except.ok () ↔
        env2.yoloDetect.returncode = 0 ∧ env2.yoloLoad.returncode = 0) ∧
      Proc.yoloLoadPy ∈ (run_yolo_enrichment_api env2).1) := by
  constructor
  · unfold run_yolo_enrichment
    rw [if_pos h]
  · intro env2
    refine ⟨?_, ?_, by simp [run_yolo_enrichment_api]⟩
    · by_cases h4 : env2.yoloDetect.returncode = 0
      · by_cases h5 : env2.yoloLoad.returncode = 0
        · unfold run_yolo_enrichment
          rw [if_neg (by simp [h4]), if_neg (by simp [h5])]
          simp [h4, h5]
        · unfold run_yolo_enrichment
          rw [if_neg (by simp [h4]), if_pos h5]
          simp [h5]
      · unfold run_yolo_enrichment
        rw [if_pos h4]
        simp [h4]
    · unfold run_yolo_enrichment_api
      by_cases h4 : env2.yoloDetect.returncode = 0
      · by_cases h5 : env2.yoloLoad.returncode = 0
        · rw [if_neg (by simp [h4, h5])]
          simp [h4, h5]
        · rw [if_pos (Or.inr h5)]
          simp [h5]
      · rw [if_pos (Or.inl h4)]
        simp [h4]

/-- Concrete instance of `enrich_substeps_fail_handling` at `c2Env`
(detection script exits 1). -/
theorem enrich_substeps_fail_handling_witness :
    (run_yolo_enrichment c2Env).1 = [Proc.yoloDetectPy] ∧
    (∀ env2 : PipelineEnv,
      ((run_yolo_enrichment env2).2 = Except.ok () ↔
        env2.yoloDetect.returncode = 0 ∧ env2.yoloLoad.returncode = 0) ∧
      ((run_yolo_enrichment_api env2).2 = Except.ok () ↔
        env2.yoloDetect.returncode = 0 ∧ env2.yoloLoad.returncode = 0) ∧
      Proc.yoloLoadPy ∈ (run_yolo_enrichment_api env2).1) :=
  enrich_substeps_fail_handling c2Env (by decide)

lemma mem_distinctKeys {l : List (String × String)} {k : String × String} :
    k ∈ distinctKeys l ↔ k ∈ l := by
  induction l with
  | nil => simp [distinctKeys]
  | cons a as ih =>
    simp only [distinctKeys, List.mem_cons]
    constructor
    · rintro (h | h)
      · exact Or.inl h
      · exact Or.inr (ih.mp (List.mem_filter.mp h).1)
    · rintro (h | h)
      · exact Or.inl h
      · by_cases hk : k = a
        · exact Or.inl hk
        · exact Or.inr (List.mem_filter.mpr ⟨ih.mpr h, by simpa using hk⟩)

lemma mem_distinctStrings {l : List String} {s : String} :
    s ∈ distinctStrings l ↔ s ∈ l := by
  induction l with
  | nil => simp [distinctStrings]
  | cons a as ih =>
    simp only [distinctStrings, List.mem_cons]
    constructor
    · rintro (h | h)
      · exact Or.inl h
      · exact Or.inr (ih.mp (List.mem_filter.mp h).1)
    · rintro (h | h)
      · exact Or.inl h
      · by_cases hk : s = a
        · exact Or.inl hk
        · exact Or.inr (List.mem_filter.mpr ⟨ih.mpr h, by simpa using hk⟩)

lemma distinctKeys_filter (p : String × String → Bool) :
    ∀ l : List (String × String),
      distinctKeys (l.filter p) = (distinctKeys l).filter p := by
  intro l
  induction l with
  | nil => simp [distinctKeys]
  | cons a as ih =>
    by_cases hpa : p a = true
    · rw [List.filter_cons_of_pos hpa]
      simp only [distinctKeys]
      rw [List.filter_cons_of_pos hpa, ih, List.filter_filter, List.filter_filter]
      congr 1
      apply List.filter_congr
      intro x _
      rw [Bool.and_comm]
    · rw [List.filter_cons_of_neg hpa]
      simp only [distinctKeys]
      rw [List.filter_cons_of_neg hpa, ih, List.filter_filter]
      apply List.filter_congr
      intro x _
      by_cases hpx : p x = true
      · have hxa : (decide (x ≠ a)) = true :=
          decide_eq_true (fun hxa => hpa (hxa ▸ hpx))
        rw [hpx, hxa]
        rfl
      · simp only [Bool.not_eq_true] at hpx
        rw [hpx, Bool.false_and]

lemma category_counts_filter_single (rows : List DetFactRow) (ch : String)
    (r : DetFactRow)
    (hone : rows.filter (fun x => decide (x.channel_name = ch)) = [r]) :
    (category_counts rows).filter (fun c => decide (c.channel_name = ch))
      = [{ channel_name := ch, image_category := r.image_category,
           category_count := 1, avg_conf := r.confidence_score }] := by
  have hrmem : r ∈ rows.filter (fun x => decide (x.channel_name = ch)) := by
    rw [hone]; simp
  have hrch : r.channel_name = ch := by
    have := (List.mem_filter.mp hrmem).2
    simpa using this
  have hpairs : (rows.map (fun x => (x.channel_name, x.image_category))).filter
      (fun k => decide (k.1 = ch)) = [(ch, r.image_category)] := by
    rw [List.filter_map]
    have hcomp : ((fun k : String × String => decide (k.1 = ch))
        ∘ (fun x : DetFactRow => (x.channel_name, x.image_category)))
        = fun x : DetFactRow => decide (x.channel_name = ch) := rfl
    rw [hcomp, hone]
    simp [hrch]
  have hkeys : (distinctKeys
      (rows.map (fun x => (x.channel_name, x.image_category)))).filter
        (fun k => decide (k.1 = ch)) = [(ch, r.image_category)] := by
    rw [← distinctKeys_filter, hpairs]
    simp [distinctKeys]
  have hgrp : rows.filter
      (fun x => decide ((x.channel_name, x.image_category)
        = (ch, r.image_category))) = [r] := by
    have hsplit : (fun x : DetFactRow =>
        decide ((x.channel_name, x.image_category) = (ch, r.image_category)))
        = fun x : DetFactRow => decide (x.image_category = r.image_category)
            && decide (x.channel_name = ch) := by
      funext x
      rw [← Bool.decide_and]
      apply decide_eq_decide.mpr
      rw [Prod.mk.injEq]
      exact ⟨fun h => ⟨h.2, h.1⟩, fun h => ⟨h.2, h.1⟩⟩
    rw [hsplit, ← List.filter_filter, hone]
    simp
  unfold category_counts
  rw [List.filter_map]
  have hcomp2 : ((fun c : CategoryCount => decide (c.channel_name = ch))
      ∘ (fun k : String × String =>
        ({ channel_name := k.1
           image_category := k.2
           category_count :=
             (rows.filter
               (fun r => decide ((r.channel_name, r.image_category) = k))).length
           avg_conf :=
             ((rows.filter
                 (fun r => decide ((r.channel_name, r.image_category) = k))).map
               DetFactRow.confidence_score).sum
             / ((rows.filter
                 (fun r => decide ((r.channel_name, r.image_category) = k))).length
                 : ℚ) } : CategoryCount)))
      = fun k : String × String => decide (k.1 = ch) := rfl
  rw [hcomp2, hkeys]
  simp only [List.map_cons, List.map_nil, hgrp]
  simp

lemma ite_ne_zero_id (x : ℚ) : (if x ≠ 0 then x else 0) = x := by
  by_cases h : x = 0 <;> simp [h]

lemma visual_stats_channel_mem (rows : List DetFactRow) (s : VisualContentStat)
    (hs : s ∈ get_visual_content_stats rows) :
    s.channel_name ∈ rows.map DetFactRow.channel_name := by
  unfold get_visual_content_stats at hs
  rw [List.mem_mergeSort] at hs
  obtain ⟨ch, hch, hsome⟩ := List.mem_filterMap.mp hs
  cases htop : topCategory ((category_counts rows).filter
      (fun c => decide (c.channel_name = ch))) with
  | none =>
    rw [htop] at hsome
    cases hsome
  | some top =>
    rw [htop] at hsome
    cases hsome
    exact mem_distinctStrings.mp hch

lemma visual_stats_single_mem (rows : List DetFactRow) (ch : String)
    (r : DetFactRow)
    (hone : rows.filter (fun x => decide (x.channel_name = ch)) = [r]) :
    ({ channel_name := ch, image_posts := 1,
       avg_confidence := pgRound3 r.confidence_score,
       top_category := if r.image_category ≠ "" then r.image_category
         else "unknown" } : VisualContentStat) ∈ get_visual_content_stats rows := by
  have hrmem : r ∈ rows.filter (fun x => decide (x.channel_name = ch)) := by
    rw [hone]; simp
  have hrrows : r ∈ rows := (List.mem_filter.mp hrmem).1
  have hrch : r.channel_name = ch := by
    have := (List.mem_filter.mp hrmem).2
    simpa using this
  have hcc := category_counts_filter_single rows ch r hone
  have hchm : ch ∈ distinctStrings (rows.map DetFactRow.channel_name) :=
    mem_distinctStrings.mpr (hrch ▸ List.mem_map_of_mem DetFactRow.channel_name hrrows)
  unfold get_visual_content_stats
  rw [List.mem_mergeSort]
  apply List.mem_filterMap.mpr
  refine ⟨ch, hchm, ?_⟩
  show (match topCategory ((category_counts rows).filter
      (fun c => decide (c.channel_name = ch))) with
    | none => none
    | some top =>
      some ({ channel_name := ch
              image_posts :=
                (((category_counts rows).filter
                    (fun c => decide (c.channel_name = ch))).map
                  CategoryCount.category_count).sum
              avg_confidence :=
                (fun avg => if avg ≠ 0 then avg else 0)
                  (pgRound3
                    ((((category_counts rows).filter
                         (fun c => decide (c.channel_name = ch))).map
                       CategoryCount.avg_conf).sum
                     / (((category_counts rows).filter
                          (fun c => decide (c.channel_name = ch))).length : ℚ)))
              top_category :=
                if top.image_category ≠ "" then top.image_category
                else "unknown" } : VisualContentStat)) = some _
  rw [hcc]
  show some _ = some _
  congr 1
  have h1 : (([⟨ch, r.image_category, 1, r.confidence_score⟩]
        : List CategoryCount).map CategoryCount.category_count).sum = 1 := rfl
  have h2 : (([⟨ch, r.image_category, 1, r.confidence_score⟩]
        : List CategoryCount).map CategoryCount.avg_conf).sum
      = r.confidence_score := by simp
  have h3 : ((([⟨ch, r.image_category, 1, r.confidence_score⟩]
        : List CategoryCount).length : ℕ) : ℚ) = 1 := by simp
  rw [h1, h2, h3, div_one]
  simp [ite_ne_zero_id]
  exact fun h => h.symm

lemma visual_stats_single_eval (r : DetFactRow) :
    get_visual_content_stats [r]
      = [({ channel_name := r.channel_name, image_posts := 1,
            avg_confidence := pgRound3 r.confidence_score,
            top_category := if r.image_category ≠ "" then r.image_category
              else "unknown" } : VisualContentStat)] := by
  have hone : ([r] : List DetFactRow).filter
      (fun x => decide (x.channel_name = r.channel_name)) = [r] := by simp
  have hcc := category_counts_filter_single [r] r.channel_name r hone
  unfold get_visual_content_stats
  have hds : distinctStrings (List.map DetFactRow.channel_name [r])
      = [r.channel_name] := rfl
  rw [hds, List.filterMap_cons]
  simp only [hcc, List.filterMap_nil, topCategory, List.foldl_cons, List.foldl_nil]
  simp [ite_ne_zero_id]
  exact fun h => h.symm

/-- C8, as stated, is false on the code: aggregating the single detection
row (channel "ch", category "other", confidence 0.1234) yields an entry
whose avg_confidence is 0.123 — the confidence rounded by
ROUND(..., 3) — which differs from the row's confidence score. -/
theorem aggregation_single_row_confidence_not_preserved :
    get_visual_content_stats [c8Row]
      = [({ channel_name := "ch", image_posts := 1,
            avg_confidence := 123/1000,
            top_category := "other" } : VisualContentStat)] ∧
    (123/1000 : ℚ) ≠ c8Row.confidence_score := by
  have hround : pgRound3 ((1234 : ℚ)/10000) = 123/1000 := by
    unfold pgRound3
    rw [if_pos (by norm_num)]
    have hfloor : ⌊(1234/10000 : ℚ) * 1000 + 1/2⌋ = (123 : ℤ) := by
      rw [Int.floor_eq_iff]
      constructor
      · push_cast; norm_num
      · push_cast; norm_num
    rw [hfloor]
    norm_num
  constructor
  · rw [visual_stats_single_eval c8Row,
      show c8Row.confidence_score = (1234 : ℚ)/10000 from rfl, hround]
    rfl
  · rw [show c8Row.confidence_score = (1234 : ℚ)/10000 from rfl]
    norm_num

/-- C8 (amended): a channel with zero detection rows is omitted from the
aggregation output, and a channel with exactly one detection row gets an
output entry with image_posts = 1 and avg_confidence equal to that row's
confidence rounded to three decimal places (Postgres ROUND(..., 3)),
rather than the raw confidence. -/
theorem aggregation_empty_omitted_single_rounded (rows : List DetFactRow)
    (ch2 ch : String) (r : DetFactRow)
    (hzero : ch2 ∉ rows.map DetFactRow.channel_name)
    (hone : rows.filter (fun x => decide (x.channel_name = ch)) = [r]) :
    (∀ s ∈ get_visual_content_stats rows, s.channel_name ≠ ch2) ∧
    (∃ s ∈ get_visual_content_stats rows, s.channel_name = ch ∧
      s.image_posts = 1 ∧ s.avg_confidence = pgRound3 r.confidence_score) := by
  constructor
  · intro s hs heq
    exact hzero (heq ▸ visual_stats_channel_mem rows s hs)
  · exact ⟨_, visual_stats_single_mem rows ch r hone, rfl, rfl, rfl⟩

/-- Concrete instance of `aggregation_empty_omitted_single_rounded`: the
one-row table `[c8Row]`, an absent channel "nosuch" and the channel
"ch" holding exactly one row. -/
theorem aggregation_empty_omitted_single_rounded_witness :
    (∀ s ∈ get_visual_content_stats [c8Row], s.channel_name ≠ "nosuch") ∧
    (∃ s ∈ get_visual_content_stats [c8Row], s.channel_name = "ch" ∧
      s.image_posts = 1 ∧ s.avg_confidence = pgRound3 c8Row.confidence_score) :=
  aggregation_empty_omitted_single_rounded [c8Row] "nosuch" "ch" c8Row
    (by decide) (by rfl)

end MedicalWarehouse
